import Mathlib

/-!
Shallow embedding of the RamIA core policy/issuance code:
`ramia_autopolicy.pyx` (supply-capped dynamic issuance, signal fetch) and the
policy sidecar `ramia_policy_service.py` (src/unnamed/part_015: `tx_policy`,
`block_reward`, module state `STATE`).

Modelling conventions:
* Python `int` is `ℤ`.
* Python `float` arithmetic is modelled by exact rational (`ℚ`) arithmetic,
  except in `block_reward`, whose source calls the transcendental `math.exp`
  and `math.log10`; there floats are modelled by `ℝ`.
* Python `//` (floor division) is `Int.fdiv`; `int(x)` applied to a float
  (truncation toward zero) is `pyInt`; Python 3 `round` (round-half-to-even)
  is `pyRound`; `str.lower()` is `pyLower` (ASCII case folding, which covers
  every string the code and the claims use).
* The `re.search` calls only ever use the literal patterns in
  `SPAM_PATTERNS`: one of the form `http[s]?://` and word-bounded literals
  `\b...\b`; the matcher is implemented for exactly these shapes.
-/

namespace RamIA

/-- Python `int(x)` applied to a float: truncation toward zero. -/
def pyInt (q : ℚ) : ℤ := if 0 ≤ q then q.floor else q.ceil

/-- `clamp(x, lo, hi)` from ramia_policy_service.py:
`return lo if x < lo else hi if x > hi else x`. -/
def clamp {α : Type} [LinearOrder α] (x lo hi : α) : α :=
  if x < lo then lo else if x > hi then hi else x

/-- Python `str.lower()` (ASCII case folding). -/
def pyLower (s : String) : String := ⟨s.data.map Char.toLower⟩

/-- `IssuanceConfig` dataclass from ramia_autopolicy.pyx (defaults included). -/
structure IssuanceConfig where
  total_supply : ℤ := 100000000
  target_block_time_sec : ℤ := 60
  target_years : ℤ := 10
  min_subsidy : ℤ := 1
  max_subsidy : ℤ := 5000

/-- `compute_target_blocks(cfg)` from ramia_autopolicy.pyx:
`secs = cfg.target_years * 365 * 24 * 3600`;
`return max(1, secs // max(1, cfg.target_block_time_sec))`. -/
def compute_target_blocks (cfg : IssuanceConfig) : ℤ :=
  max 1 ((cfg.target_years * 365 * 24 * 3600).fdiv (max 1 cfg.target_block_time_sec))

/-- `compute_dynamic_subsidy(height, already_issued, cfg, signals)` from
ramia_autopolicy.pyx (lines 137-176).  The two signal fields the function
reads (`signals.get("fee_fast", 0.0)` and `signals.get("mempool_txs", 0)`)
are passed directly; float arithmetic is modelled exactly over `ℚ`
(0.75 = 3/4, 0.25 = 1/4). -/
def compute_dynamic_subsidy (height : ℤ) (already_issued : ℤ)
    (cfg : IssuanceConfig) (fee_fast : ℚ) (mempool_txs : ℤ) : ℤ :=
  let remaining : ℤ := cfg.total_supply - max 0 already_issued
  if remaining ≤ 0 then 0
  else
    let target_blocks := compute_target_blocks cfg
    let remaining_blocks := max 1 (target_blocks - max 0 height)
    let baseline := max 1 (remaining.fdiv remaining_blocks)
    let fee_pressure : ℚ := min 3 (fee_fast / 50)
    let mempool_pressure : ℚ := min 3 ((mempool_txs : ℚ) / 50000)
    let pressure := max fee_pressure mempool_pressure
    let mult : ℚ := 1 + min (3/4) ((1/4) * pressure)
    let sub := pyInt ((baseline : ℚ) * mult)
    let sub2 := max cfg.min_subsidy (min cfg.max_subsidy sub)
    min sub2 remaining

/-- The congestion multiplier subexpression of `compute_dynamic_subsidy`
(source lines 158-169): `1.0 + min(0.75, 0.25 * pressure)` where
`pressure = max(min(3.0, fee_fast / 50.0), min(3.0, mempool_txs / 50_000))`.
Named separately so that the pipeline lemmas can factor it out. -/
def subsidyMult (fee_fast : ℚ) (mempool_txs : ℤ) : ℚ :=
  1 + min (3/4) ((1/4) * max (min 3 (fee_fast / 50)) (min 3 ((mempool_txs : ℚ) / 50000)))

/-- Payload of a successful `https://mempool.space/api/mempool` response
(the two keys `_http_get_json`'s caller reads). -/
structure MempoolInfo where
  count : ℤ := 0
  vsize : ℤ := 0
deriving DecidableEq

/-- Payload of a successful `https://mempool.space/api/v1/fees/recommended`
response. -/
structure RecommendedFees where
  fastestFee : ℚ := 0
  hourFee : ℚ := 0
  economyFee : ℚ := 0
deriving DecidableEq

/-- Payload of a successful `https://blockstream.info/api/fee-estimates`
response: the six keys the code looks up, `none` when a key is absent. -/
structure BsFeeEstimates where
  t1 : Option ℚ := none
  t2 : Option ℚ := none
  t6 : Option ℚ := none
  t10 : Option ℚ := none
  t144 : Option ℚ := none
  t100 : Option ℚ := none
deriving DecidableEq

/-- The signal snapshot dictionary returned by `fetch_btc_mempool_signals`. -/
structure Signals where
  mempool_txs : ℤ
  mempool_vbytes : ℤ
  fee_fast : ℚ
  fee_hour : ℚ
  fee_econ : ℚ
  source : String
deriving DecidableEq

/-- `fetch_btc_mempool_signals()` from ramia_autopolicy.pyx (lines 67-116),
with the HTTP transport abstracted away: each argument is the parsed JSON of
one endpoint, `none` when `_http_get_json` failed (it returns `None` on any
exception).  Python's truthiness test `if mp_mempool and mp_fees` is modelled
as both options being `some`; the `or 0.0` coalescing in the blockstream
branch is numerically the identity on the modelled values. -/
def fetch_btc_mempool_signals (mp_mempool : Option MempoolInfo)
    (mp_fees : Option RecommendedFees) (bs_fees : Option BsFeeEstimates) :
    Signals :=
  match mp_mempool, mp_fees with
  | some m, some f =>
      { mempool_txs := m.count, mempool_vbytes := m.vsize,
        fee_fast := f.fastestFee, fee_hour := f.hourFee,
        fee_econ := f.economyFee, source := "mempool.space" }
  | _, _ =>
    match bs_fees with
    | some b =>
        { mempool_txs := 0, mempool_vbytes := 0,
          fee_fast := b.t1.getD (b.t2.getD 0),
          fee_hour := b.t6.getD (b.t10.getD 0),
          fee_econ := b.t144.getD (b.t100.getD 0),
          source := "blockstream.info" }
    | none =>
        { mempool_txs := 0, mempool_vbytes := 0, fee_fast := 0,
          fee_hour := 0, fee_econ := 0, source := "none" }

/-- A word character for the regex `\b` boundary (Python `\w`, restricted to
ASCII, which covers every pattern and memo the code and claims use). -/
def isWordChar (c : Char) : Bool := c.isAlphanum || c == '_'

/-- Character-list version of "w is a literal prefix of s". -/
def startsWithChars : List Char → List Char → Bool
  | [], _ => true
  | _ :: _, [] => false
  | c :: w, d :: s => c == d && startsWithChars w s

/-- Does w occur as a literal substring of s? -/
def hasSubstrChars (w : List Char) : List Char → Bool
  | [] => w.isEmpty
  | c :: rest => startsWithChars w (c :: rest) || hasSubstrChars w rest

/-- At the current position, does s start with the literal w followed by a
word boundary (end of string or a non-word character)? -/
def startsWordBounded : List Char → List Char → Bool
  | [], [] => true
  | [], c :: _ => !isWordChar c
  | _ :: _, [] => false
  | c :: w, d :: s => c == d && startsWordBounded w s

/-- `re.search` for a pattern of the shape `\b<literal>\b` where the literal
starts and ends with a word character: some position of s starts the literal,
preceded by start-of-string or a non-word character, and followed by a word
boundary.  `prevIsWord` records whether the previous character was a word
character. -/
def searchWordBounded (w : List Char) (prevIsWord : Bool) : List Char → Bool
  | [] => false
  | c :: rest =>
      (!prevIsWord && startsWordBounded w (c :: rest))
      || searchWordBounded w (isWordChar c) rest

/-- The shape of one entry of `SPAM_PATTERNS`: the URL pattern
`http[s]?://`, or a word-bounded literal `\b<w>\b`. -/
inductive PatKind
  | httpUrl
  | word (w : String)
deriving DecidableEq

/-- One spam pattern: its regex source text (used verbatim in the
`memo_matches:` reason string) and its shape. -/
structure SpamPattern where
  src : String
  kind : PatKind
deriving DecidableEq

/-- `re.search(pat, s)` for the two pattern shapes used by `SPAM_PATTERNS`.
`http[s]?://` matches exactly when `http://` or `https://` occurs as a
substring. -/
def patMatches (k : PatKind) (s : String) : Bool :=
  match k with
  | .httpUrl =>
      hasSubstrChars "http://".data s.data || hasSubstrChars "https://".data s.data
  | .word w => searchWordBounded w.data false s.data

/-- `SPAM_PATTERNS` from ramia_policy_service.py (lines 40-44), in source
order. -/
def SPAM_PATTERNS : List SpamPattern :=
  [⟨"http[s]?://", .httpUrl⟩,
   ⟨"\\bfree money\\b", .word "free money"⟩,
   ⟨"\\bairdrop\\b", .word "airdrop"⟩,
   ⟨"\\bclaim\\b", .word "claim"⟩,
   ⟨"\\bgiveaway\\b", .word "giveaway"⟩,
   ⟨"\\bbonus\\b", .word "bonus"⟩,
   ⟨"\\bpromo\\b", .word "promo"⟩,
   ⟨"\\bwallet connect\\b", .word "wallet connect"⟩,
   ⟨"\\bseed phrase\\b", .word "seed phrase"⟩,
   ⟨"\\bpassword\\b", .word "password"⟩,
   ⟨"\\btelegram\\b", .word "telegram"⟩]

/-- A transaction as read by `tx_policy` from the request body, with the
source's `tx.get(...)` defaults: `memo=""`, `outputs=1`, `fee=0`,
`amount=0`. -/
structure Tx where
  memo : String := ""
  outputs : ℤ := 1
  fee : ℤ := 0
  amount : ℚ := 0
deriving DecidableEq

/-- The result tuple of `tx_policy`:
`(ok, fee_multiplier, reasons, suggestions, suspicion)`. -/
structure PolicyResult where
  ok : Bool
  fee_multiplier : ℚ
  reasons : List String
  suggestions : List String
  suspicion : ℚ
deriving DecidableEq

/-- The memo spam scan of `tx_policy` (lines 72-79): inside `if memo:`, the
first pattern of `SPAM_PATTERNS` that matches `memo.lower()` (the loop breaks
at the first hit), `none` when the memo is empty or nothing matches. -/
def memoSpamHit (tx : Tx) : Option SpamPattern :=
  if tx.memo = "" then none
  else SPAM_PATTERNS.find? fun p => patMatches p.kind (pyLower tx.memo)

/-- The suspicion accumulated by the feature block of `tx_policy`
(lines 67-107), before the final `clamp(suspicion, 0.0, 1.0)`.  Float
increments are exact rationals: 0.35 = 7/20, 0.15 = 3/20, 0.25 = 1/4,
0.10 = 1/10, and the fee/amount threshold 0.00001 = 1/100000.  The
`len(memo) > 140` test sits inside `if memo:` in the source; the guard is
implied because a string longer than 140 is nonempty. -/
def suspicionRaw (tx : Tx) : ℚ :=
  (if (memoSpamHit tx).isSome then 7/20 else 0)
  + (if 140 < tx.memo.length then 3/20 else 0)
  + (if 6 ≤ tx.outputs then 1/4 else 0)
  + (if tx.fee ≤ 0 then 7/20 else if tx.fee < 100 then 3/20 else 0)
  + (if 0 < tx.amount ∧ 0 < tx.fee ∧ (tx.fee : ℚ) / max 1 tx.amount < 1/100000
      then 1/10 else 0)

/-- The `reasons` list accumulated by the feature block of `tx_policy`
(lines 67-107), in source append order. -/
def featureReasons (tx : Tx) : List String :=
  (match memoSpamHit tx with
   | some p => ["memo_matches:" ++ p.src]
   | none => [])
  ++ (if 140 < tx.memo.length then ["memo_too_long"] else [])
  ++ (if 6 ≤ tx.outputs then ["many_outputs:" ++ toString tx.outputs] else [])
  ++ (if tx.fee ≤ 0 then ["zero_fee"]
      else if tx.fee < 100 then ["low_fee"] else [])
  ++ (if 0 < tx.amount ∧ 0 < tx.fee ∧ (tx.fee : ℚ) / max 1 tx.amount < 1/100000
      then ["fee_to_amount_ratio_low"] else [])

/-- The `suggestions` list accumulated by the feature block of `tx_policy`
(lines 67-107), in source append order. -/
def featureSuggestions (tx : Tx) : List String :=
  (match memoSpamHit tx with
   | some _ => ["Remove links/promotional/suspicious wording from memo."]
   | none => [])
  ++ (if 140 < tx.memo.length then ["Shorten memo to < 140 chars."] else [])
  ++ (if 6 ≤ tx.outputs
      then ["Reduce number of outputs to avoid spray/spam patterns."] else [])
  ++ (if tx.fee ≤ 0 then ["Increase fee to pass anti-spam policy."]
      else if tx.fee < 100
      then ["Increase fee (>= 100) to reduce suspicion."] else [])
  ++ (if 0 < tx.amount ∧ 0 < tx.fee ∧ (tx.fee : ℚ) / max 1 tx.amount < 1/100000
      then ["Increase fee or split amount more naturally."] else [])

/-- `tx_policy(tx)` from ramia_policy_service.py (lines 67-126): the feature
block, then `suspicion = clamp(suspicion, 0.0, 1.0)`, the fee-multiplier
table (0.40 = 2/5, 0.70 = 7/10 with `reasons.insert(0, ...)` for the warn
tiers), and the deny test `suspicion >= 0.90` (9/10). -/
def tx_policy (tx : Tx) : PolicyResult :=
  let suspicion := clamp (suspicionRaw tx) 0 1
  let mr : ℚ × List String :=
    if suspicion < 2/5 then (1, featureReasons tx)
    else if suspicion < 7/10 then (2, "suspicious_tx_warning" :: featureReasons tx)
    else (5, "high_risk_tx_warning" :: featureReasons tx)
  if 9/10 ≤ suspicion then
    { ok := false, fee_multiplier := mr.1,
      reasons := "tx_denied_extreme_spam" :: mr.2,
      suggestions :=
        featureSuggestions tx ++ ["Rewrite transaction to remove spam indicators."],
      suspicion := suspicion }
  else
    { ok := true, fee_multiplier := mr.1, reasons := mr.2,
      suggestions := featureSuggestions tx, suspicion := suspicion }

/-- Config constants of ramia_policy_service.py (lines 32-38). -/
def TOTAL_SUPPLY : ℤ := 100000000

/-- `MIN_REWARD` constant. -/
def MIN_REWARD : ℤ := 1

/-- `MAX_REWARD` constant. -/
def MAX_REWARD : ℤ := 20000

/-- `TARGET_YEARS` constant. -/
def TARGET_YEARS : ℤ := 10

/-- `TARGET_BLOCK_SECONDS` constant. -/
def TARGET_BLOCK_SECONDS : ℤ := 60

/-- `SMOOTHING` constant (float 0.15, modelled exactly). -/
noncomputable def SMOOTHING : ℝ := 0.15

/-- `TAIL_EMISSION` constant. -/
def TAIL_EMISSION : Bool := false

/-- The initial module state `STATE = {"prev_reward": 0.0}` of
ramia_policy_service.py (line 46). -/
noncomputable def initialPrevReward : ℝ := 0

/-- `sigmoid(x)` from ramia_policy_service.py (lines 51-54), stable two-branch
form over the reals. -/
noncomputable def sigmoid (x : ℝ) : ℝ :=
  if 0 ≤ x then 1 / (1 + Real.exp (-x)) else Real.exp x / (1 + Real.exp x)

/-- `ewma(prev, target, alpha)` from ramia_policy_service.py (lines 56-58). -/
noncomputable def ewma (prev target alpha : ℝ) : ℝ :=
  let a := clamp alpha 0 1
  (1 - a) * prev + a * target

/-- `estimate_target_blocks()` from ramia_policy_service.py (lines 60-62):
`secs = TARGET_YEARS * 365.25 * 24 * 3600; return max(1.0, secs / max(1, TARGET_BLOCK_SECONDS))`. -/
noncomputable def estimate_target_blocks : ℝ :=
  max 1 ((TARGET_YEARS : ℝ) * 365.25 * 24 * 3600 / ((max 1 TARGET_BLOCK_SECONDS : ℤ) : ℝ))

/-- Python 3 `round` (round half to even), as applied by `block_reward`. -/
noncomputable def pyRound (x : ℝ) : ℤ :=
  if Int.fract x = 1/2 then (if Even ⌊x⌋ then ⌊x⌋ else ⌊x⌋ + 1) else round x

/-- The metrics dictionary read by `block_reward`, with the source's
`metrics.get(...)` defaults. -/
structure Metrics where
  height : ℤ := 0
  minted : ℤ := 0
  active_miners : ℝ := 1
  active_nodes : ℝ := 1
  tx_count : ℝ := 0
  mempool_size : ℝ := 0
  fee_pressure : ℝ := 0

/-- `block_reward(metrics)` from ramia_policy_service.py (lines 131-186),
with the module global `STATE["prev_reward"]` made explicit: the second
argument is the value read, the second component of the result is the value
written back (the early cap-reached return does not touch `STATE`).
`math.log10` is `Real.logb 10`.  The debug dictionary of the source is not
modelled. -/
noncomputable def block_reward (m : Metrics) (prev_reward : ℝ) : ℤ × ℝ :=
  let remaining : ℤ := TOTAL_SUPPLY - m.minted
  if remaining ≤ 0 then
    ((if TAIL_EMISSION then MIN_REWARD else 0), prev_reward)
  else
    let blocks_total := estimate_target_blocks
    let remaining_blocks : ℝ := max 1 (blocks_total - (m.height : ℝ))
    let base : ℝ := max 1 ((remaining : ℝ) / remaining_blocks)
    let part := 0.6 * Real.logb 10 (max 1 m.active_miners)
      + 0.4 * Real.logb 10 (max 1 m.active_nodes)
    let demand := 0.7 * sigmoid ((m.tx_count - 200) / 200)
      + 0.3 * sigmoid ((m.mempool_size - 50) / 50)
    let cand_a := base * clamp (1 + 0.35 * part + 0.45 * (demand - 0.5)) 0.5 1.8
    let cand_b := base * clamp (1 + 0.20 * part + 0.60 * (m.fee_pressure / 3)) 0.5 1.8
    let target := 0.5 * (cand_a + cand_b)
    let prev := if prev_reward ≤ 0 then base else prev_reward
    let smoothed := ewma prev target SMOOTHING
    let smoothed2 := clamp smoothed (MIN_REWARD : ℝ) (MAX_REWARD : ℝ)
    let reward := pyRound smoothed2
    let reward2 := min reward (max 0 remaining)
    (reward2, (reward2 : ℝ))

/-- The `POST /tx_policy` arm of `Handler.do_POST` (lines 215-224): it calls
`tx_policy(data)` and neither reads nor writes the module state
`STATE["prev_reward"]`, which is threaded through unchanged. -/
def handle_tx_policy (t : Tx) (prev_reward : ℝ) : PolicyResult × ℝ :=
  (tx_policy t, prev_reward)

/-! ### Helper lemmas -/

theorem rat_floor_eq (q : ℚ) : q.floor = ⌊q⌋ := by
  rw [Rat.floor_def' q, Rat.floor_def]

theorem rat_ceil_eq (q : ℚ) : q.ceil = ⌈q⌉ := by
  unfold Rat.ceil
  split_ifs with h
  · have hq : ((q.num : ℚ)) = q := Rat.coe_int_num_of_den_eq_one h
    calc q.num = ⌈(q.num : ℚ)⌉ := (Int.ceil_intCast q.num).symm
    _ = ⌈q⌉ := by rw [hq]
  · have hne : ((⌊q⌋ : ℚ)) ≠ q := by
      intro hEq
      apply h
      have hden : q.den = ((⌊q⌋ : ℚ)).den := by rw [hEq]
      rw [hden, Rat.den_intCast]
    have hlt : ((⌊q⌋ : ℚ)) < q := lt_of_le_of_ne (Int.floor_le q) hne
    have h1 : ⌊q⌋ + 1 ≤ ⌈q⌉ := by
      have h2 : ((⌊q⌋ : ℚ)) < ((⌈q⌉ : ℚ)) := lt_of_lt_of_le hlt (Int.le_ceil q)
      have h3 : ⌊q⌋ < ⌈q⌉ := by exact_mod_cast h2
      omega
    have h4 : ⌈q⌉ = ⌊q⌋ + 1 := le_antisymm (Int.ceil_le_floor_add_one q) h1
    rw [h4, Rat.floor_def]

theorem pyInt_of_nonneg {q : ℚ} (h : 0 ≤ q) : pyInt q = ⌊q⌋ := by
  rw [pyInt, if_pos h, rat_floor_eq]

theorem pyInt_of_neg {q : ℚ} (h : ¬ 0 ≤ q) : pyInt q = ⌈q⌉ := by
  rw [pyInt, if_neg h, rat_ceil_eq]

theorem pyInt_intCast (n : ℤ) : pyInt (n : ℚ) = n := by
  rw [pyInt]
  split_ifs with h
  · rw [rat_floor_eq, Int.floor_intCast]
  · rw [rat_ceil_eq, Int.ceil_intCast]

theorem pyInt_mono {a b : ℚ} (h : a ≤ b) : pyInt a ≤ pyInt b := by
  by_cases ha : 0 ≤ a
  · rw [pyInt_of_nonneg ha, pyInt_of_nonneg (ha.trans h)]
    exact Int.floor_le_floor h
  · by_cases hb : 0 ≤ b
    · rw [pyInt_of_neg ha, pyInt_of_nonneg hb]
      have h1 : ⌈a⌉ ≤ 0 := Int.ceil_le.mpr (by exact_mod_cast le_of_not_le ha)
      have h2 : 0 ≤ ⌊b⌋ := Int.floor_nonneg.mpr hb
      omega
    · rw [pyInt_of_neg ha, pyInt_of_neg hb]
      exact Int.ceil_le_ceil h

theorem pyInt_nonpos {q : ℚ} (h : q ≤ 0) : pyInt q ≤ 0 := by
  by_cases h0 : 0 ≤ q
  · rw [pyInt_of_nonneg h0]
    exact Int.floor_nonpos h
  · rw [pyInt_of_neg h0]
    exact Int.ceil_le.mpr (by exact_mod_cast h)

theorem clamp_eq_max_min {α : Type} [LinearOrder α] (x lo hi : α) (h : lo ≤ hi) :
    clamp x lo hi = max lo (min hi x) := by
  rw [clamp]
  split_ifs with h1 h2
  · have hm : min hi x ≤ lo := le_of_lt (lt_of_le_of_lt (min_le_right _ _) h1)
    exact (max_eq_left hm).symm
  · rw [min_eq_left (le_of_lt h2), max_eq_right h]
  · rw [min_eq_right (le_of_not_lt h2), max_eq_right (le_of_not_lt h1)]

theorem int_fdiv_le_of_le {a b d : ℤ} (hd : 0 < d) (hab : a ≤ b) :
    a.fdiv d ≤ b.fdiv d := by
  rw [Int.fdiv_eq_ediv _ (le_of_lt hd), Int.fdiv_eq_ediv _ (le_of_lt hd)]
  exact Int.ediv_le_ediv hd hab

theorem compute_dynamic_subsidy_eq (h m : ℤ) (cfg : IssuanceConfig)
    (f : ℚ) (mp : ℤ) :
    compute_dynamic_subsidy h m cfg f mp =
      if cfg.total_supply - max 0 m ≤ 0 then 0
      else
        min (max cfg.min_subsidy (min cfg.max_subsidy
          (pyInt (((max 1 ((cfg.total_supply - max 0 m).fdiv
            (max 1 (compute_target_blocks cfg - max 0 h))) : ℤ) : ℚ) *
            subsidyMult f mp))))
          (cfg.total_supply - max 0 m) := rfl

theorem subsidyMult_zero : subsidyMult 0 0 = 1 := by
  norm_num [subsidyMult]

theorem compute_dynamic_subsidy_zero_pressure (h m : ℤ) (cfg : IssuanceConfig) :
    compute_dynamic_subsidy h m cfg 0 0 =
      if cfg.total_supply - max 0 m ≤ 0 then 0
      else
        min (max cfg.min_subsidy (min cfg.max_subsidy
          (max 1 ((cfg.total_supply - max 0 m).fdiv
            (max 1 (compute_target_blocks cfg - max 0 h))))))
          (cfg.total_supply - max 0 m) := by
  rw [compute_dynamic_subsidy_eq, subsidyMult_zero, mul_one, pyInt_intCast]

theorem subsidyMult_mono_fee (mp : ℤ) {f1 f2 : ℚ} (hf : f1 ≤ f2) :
    subsidyMult f1 mp ≤ subsidyMult f2 mp := by
  unfold subsidyMult
  gcongr

theorem subsidyMult_mono_mp (f : ℚ) {p1 p2 : ℤ} (hp : p1 ≤ p2) :
    subsidyMult f p1 ≤ subsidyMult f p2 := by
  unfold subsidyMult
  have hc : ((p1 : ℤ) : ℚ) ≤ ((p2 : ℤ) : ℚ) := by exact_mod_cast hp
  gcongr

theorem baseline_cast_nonneg (r d : ℤ) : (0 : ℚ) ≤ ((max 1 (r.fdiv d) : ℤ) : ℚ) := by
  have h1 : (0 : ℤ) ≤ max 1 (r.fdiv d) := le_trans zero_le_one (le_max_left _ _)
  exact_mod_cast h1

theorem subsidy_mono_fee (hgt m : ℤ) (cfg : IssuanceConfig) (mp : ℤ)
    {f1 f2 : ℚ} (hf : f1 ≤ f2) :
    compute_dynamic_subsidy hgt m cfg f1 mp ≤ compute_dynamic_subsidy hgt m cfg f2 mp := by
  rw [compute_dynamic_subsidy_eq, compute_dynamic_subsidy_eq]
  by_cases hr : cfg.total_supply - max 0 m ≤ 0
  · rw [if_pos hr, if_pos hr]
  · rw [if_neg hr, if_neg hr]
    refine min_le_min (max_le_max le_rfl (min_le_min le_rfl (pyInt_mono ?_))) le_rfl
    exact mul_le_mul_of_nonneg_left (subsidyMult_mono_fee mp hf) (baseline_cast_nonneg _ _)

theorem subsidy_mono_mp (hgt m : ℤ) (cfg : IssuanceConfig) (f : ℚ)
    {p1 p2 : ℤ} (hp : p1 ≤ p2) :
    compute_dynamic_subsidy hgt m cfg f p1 ≤ compute_dynamic_subsidy hgt m cfg f p2 := by
  rw [compute_dynamic_subsidy_eq, compute_dynamic_subsidy_eq]
  by_cases hr : cfg.total_supply - max 0 m ≤ 0
  · rw [if_pos hr, if_pos hr]
  · rw [if_neg hr, if_neg hr]
    refine min_le_min (max_le_max le_rfl (min_le_min le_rfl (pyInt_mono ?_))) le_rfl
    exact mul_le_mul_of_nonneg_left (subsidyMult_mono_mp f hp) (baseline_cast_nonneg _ _)

theorem subsidy_anti_minted (cfg : IssuanceConfig) (hmin : 0 ≤ cfg.min_subsidy)
    (hgt : ℤ) (f : ℚ) (mp : ℤ) {m1 m2 : ℤ} (hm : m1 ≤ m2) :
    compute_dynamic_subsidy hgt m2 cfg f mp ≤ compute_dynamic_subsidy hgt m1 cfg f mp := by
  rw [compute_dynamic_subsidy_eq, compute_dynamic_subsidy_eq]
  have hM : max 0 m1 ≤ max 0 m2 := max_le_max le_rfl hm
  have hr : cfg.total_supply - max 0 m2 ≤ cfg.total_supply - max 0 m1 :=
    sub_le_sub_left hM _
  by_cases h2 : cfg.total_supply - max 0 m2 ≤ 0
  · rw [if_pos h2]
    by_cases h1 : cfg.total_supply - max 0 m1 ≤ 0
    · rw [if_pos h1]
    · rw [if_neg h1]
      refine le_min (le_trans hmin (le_max_left _ _)) (by omega)
  · have h1 : ¬ cfg.total_supply - max 0 m1 ≤ 0 := fun hc => h2 (le_trans hr hc)
    rw [if_neg h2, if_neg h1]
    set d := max 1 (compute_target_blocks cfg - max 0 hgt) with hd
    have hdpos : (0 : ℤ) < d := lt_of_lt_of_le zero_lt_one (le_max_left _ _)
    have hb : max 1 ((cfg.total_supply - max 0 m2).fdiv d)
        ≤ max 1 ((cfg.total_supply - max 0 m1).fdiv d) :=
      max_le_max le_rfl (int_fdiv_le_of_le hdpos hr)
    by_cases hmu : 0 ≤ subsidyMult f mp
    · refine min_le_min (max_le_max le_rfl (min_le_min le_rfl (pyInt_mono ?_))) hr
      refine mul_le_mul_of_nonneg_right ?_ hmu
      exact_mod_cast hb
    · push_neg at hmu
      have hs2 : pyInt (((max 1 ((cfg.total_supply - max 0 m2).fdiv d) : ℤ) : ℚ) *
          subsidyMult f mp) ≤ 0 :=
        pyInt_nonpos (mul_nonpos_of_nonneg_of_nonpos (baseline_cast_nonneg _ _) hmu.le)
      have hs1 : pyInt (((max 1 ((cfg.total_supply - max 0 m1).fdiv d) : ℤ) : ℚ) *
          subsidyMult f mp) ≤ 0 :=
        pyInt_nonpos (mul_nonpos_of_nonneg_of_nonpos (baseline_cast_nonneg _ _) hmu.le)
      have e2 : max cfg.min_subsidy (min cfg.max_subsidy
          (pyInt (((max 1 ((cfg.total_supply - max 0 m2).fdiv d) : ℤ) : ℚ) *
            subsidyMult f mp))) = cfg.min_subsidy :=
        max_eq_left (le_trans (min_le_right _ _) (le_trans hs2 hmin))
      have e1 : max cfg.min_subsidy (min cfg.max_subsidy
          (pyInt (((max 1 ((cfg.total_supply - max 0 m1).fdiv d) : ℤ) : ℚ) *
            subsidyMult f mp))) = cfg.min_subsidy :=
        max_eq_left (le_trans (min_le_right _ _) (le_trans hs1 hmin))
      rw [e2, e1]
      exact min_le_min le_rfl hr

/-- C1: for every height, every `already_issued`, every config and every
signal snapshot, `compute_dynamic_subsidy` returns 0 when
`total_supply - already_issued ≤ 0`, otherwise returns at most the remaining
supply, and therefore `already_issued` plus the returned subsidy never
exceeds `total_supply` (100,000,000 under the default configuration). -/
theorem C1_subsidy_supply_cap (cfg : IssuanceConfig) (h m : ℤ) (f : ℚ) (mp : ℤ) :
    (cfg.total_supply - max 0 m ≤ 0 → compute_dynamic_subsidy h m cfg f mp = 0)
    ∧ compute_dynamic_subsidy h m cfg f mp ≤ max 0 (cfg.total_supply - max 0 m)
    ∧ (m ≤ cfg.total_supply →
        m + compute_dynamic_subsidy h m cfg f mp ≤ cfg.total_supply) := by
  rw [compute_dynamic_subsidy_eq]
  by_cases hr : cfg.total_supply - max 0 m ≤ 0
  · rw [if_pos hr]
    exact ⟨fun _ => rfl, le_max_left _ _, fun hm => by omega⟩
  · rw [if_neg hr]
    have h2 : min (max cfg.min_subsidy (min cfg.max_subsidy
        (pyInt (((max 1 ((cfg.total_supply - max 0 m).fdiv
          (max 1 (compute_target_blocks cfg - max 0 h))) : ℤ) : ℚ) *
          subsidyMult f mp))))
        (cfg.total_supply - max 0 m) ≤ cfg.total_supply - max 0 m :=
      min_le_right _ _
    have h3 : m ≤ max 0 m := le_max_right 0 m
    exact ⟨fun hc => absurd hc hr, le_trans h2 (le_max_right _ _), fun _ => by omega⟩

/-- C1 witness: the supply-cap bounds evaluated at the default configuration,
height 1, zero issuance and a zero-pressure snapshot. -/
theorem C1_subsidy_supply_cap_witness :
    compute_dynamic_subsidy 1 0 {} 0 0
        ≤ max 0 (({} : IssuanceConfig).total_supply - max 0 0)
    ∧ (0 : ℤ) ≤ ({} : IssuanceConfig).total_supply
    ∧ 0 + compute_dynamic_subsidy 1 0 {} 0 0 ≤ ({} : IssuanceConfig).total_supply := by
  have h := C1_subsidy_supply_cap {} 1 0 0 0
  exact ⟨h.2.1, by decide, h.2.2 (by decide)⟩

/-- C2 counterexample: with the (pathological but representable) config
`total_supply=10, min_subsidy=-5, max_subsidy=-5` and a zero-pressure
snapshot, the subsidy at `minted=5` is -5 while at `minted=10` it is 0, so
the subsidy is NOT monotonically non-increasing in `minted` for every fixed
config, refuting the claim as stated. -/
theorem C2_monotonic_counterexample :
    (0 : ℤ) ≤ 5 ∧ (5 : ℤ) ≤ 10
    ∧ ¬ (compute_dynamic_subsidy 0 10
          { total_supply := 10, min_subsidy := -5, max_subsidy := -5 } 0 0
        ≤ compute_dynamic_subsidy 0 5
          { total_supply := 10, min_subsidy := -5, max_subsidy := -5 } 0 0) := by
  refine ⟨by norm_num, by norm_num, ?_⟩
  rw [compute_dynamic_subsidy_zero_pressure, compute_dynamic_subsidy_zero_pressure]
  decide

/-- C2 (amended): for every fixed config with non-negative `min_subsidy`
(the default is 1) and fixed signal snapshot, the subsidy is monotonically
non-increasing in `minted` (for `minted ≥ 0`), and for fixed height and
minted it is monotonically non-decreasing in `fee_fast` and in
`mempool_txs` (for those parts, for every config). -/
theorem C2_monotonic_amended (cfg : IssuanceConfig) (hgt : ℤ) (f : ℚ) (mp : ℤ) :
    (∀ m1 m2 : ℤ, 0 ≤ cfg.min_subsidy → 0 ≤ m1 → m1 ≤ m2 →
        compute_dynamic_subsidy hgt m2 cfg f mp
          ≤ compute_dynamic_subsidy hgt m1 cfg f mp)
    ∧ (∀ m : ℤ, ∀ f1 f2 : ℚ, f1 ≤ f2 →
        compute_dynamic_subsidy hgt m cfg f1 mp
          ≤ compute_dynamic_subsidy hgt m cfg f2 mp)
    ∧ (∀ m : ℤ, ∀ p1 p2 : ℤ, p1 ≤ p2 →
        compute_dynamic_subsidy hgt m cfg f p1
          ≤ compute_dynamic_subsidy hgt m cfg f p2) :=
  ⟨fun _ _ hmin _ hm => subsidy_anti_minted cfg hmin hgt f mp hm,
   fun m _ _ hf => subsidy_mono_fee hgt m cfg mp hf,
   fun m _ _ hp => subsidy_mono_mp hgt m cfg f hp⟩

/-- C2 witness: the three monotonicity statements evaluated at the default
configuration, height 1, concrete minted/fee/mempool pairs. -/
theorem C2_monotonic_amended_witness :
    compute_dynamic_subsidy 1 10 {} 0 0 ≤ compute_dynamic_subsidy 1 0 {} 0 0
    ∧ compute_dynamic_subsidy 1 0 {} 0 0 ≤ compute_dynamic_subsidy 1 0 {} 1 0
    ∧ compute_dynamic_subsidy 1 0 {} 0 0 ≤ compute_dynamic_subsidy 1 0 {} 0 1 := by
  have h := C2_monotonic_amended {} 1 0 0
  exact ⟨h.1 0 10 (by decide) le_rfl (by decide),
         h.2.1 0 0 1 (by norm_num),
         h.2.2 0 0 1 (by decide)⟩

/-- C3: with the default issuance configuration and a zero-pressure snapshot,
the subsidy for height 1 with `already_issued = 0` is 19, which equals
`floor(100_000_000 / 5_256_000)`, and the target block count is 5,256,000. -/
theorem C3_genesis_subsidy_19 :
    compute_target_blocks {} = 5256000
    ∧ compute_dynamic_subsidy 1 0 {} 0 0 = 19
    ∧ (100000000 : ℤ).fdiv 5256000 = 19 := by
  refine ⟨by decide, ?_, by decide⟩
  rw [compute_dynamic_subsidy_zero_pressure]
  decide

/-- C6 counterexample: from `minted_total = 99_999_990` at height 1 with
zero pressure, the computed subsidy is 1 (the glidepath baseline, not 10),
so applying it yields `minted_total = 99_999_991`, not 100,000,000 as the
claim states. -/
theorem C6_cap_clamp_counterexample :
    compute_dynamic_subsidy 1 99999990 {} 0 0 = 1
    ∧ 99999990 + compute_dynamic_subsidy 1 99999990 {} 0 0 ≠ 100000000 := by
  have h : compute_dynamic_subsidy 1 99999990 {} 0 0 = 1 := by
    rw [compute_dynamic_subsidy_zero_pressure]
    decide
  exact ⟨h, by rw [h]; norm_num⟩

/-- C6 (amended): from `minted_total = 99_999_990` at height 1 under the
default configuration with zero pressure, the subsidy equals
`min(baseline, 10)` where the baseline `max(1, 10 // 5_255_999)` is 1; after
applying it `minted_total = 99_999_991` (not 100,000,000); and a subsidy
computation at `minted_total = 100_000_000` returns 0. -/
theorem C6_cap_clamp_amended :
    compute_dynamic_subsidy 1 99999990 {} 0 0
        = min (max 1 ((10 : ℤ).fdiv 5255999)) 10
    ∧ 99999990 + compute_dynamic_subsidy 1 99999990 {} 0 0 = 99999991
    ∧ compute_dynamic_subsidy 2 100000000 {} 0 0 = 0 := by
  have h1 : compute_dynamic_subsidy 1 99999990 {} 0 0 = 1 := by
    rw [compute_dynamic_subsidy_zero_pressure]
    decide
  have h3 : compute_dynamic_subsidy 2 100000000 {} 0 0 = 0 := by
    rw [compute_dynamic_subsidy_zero_pressure]
    decide
  exact ⟨by rw [h1]; decide, by rw [h1]; norm_num, h3⟩

/-! ### Transaction policy lemmas -/

theorem append_ne_of_head {a b : String} {c d : Char} {la lb : List Char}
    (ha : a.data = c :: la) (hb : b.data = d :: lb) (hcd : c ≠ d) (t : String) :
    a ++ t ≠ b := by
  intro hEq
  apply hcd
  have h1 : (a ++ t).data = b.data := congrArg String.data hEq
  rw [String.data_append, ha, hb, List.cons_append] at h1
  injection h1 with h2 _

theorem featureReasons_head (tx : Tx) {r : String} (hr : r ∈ featureReasons tx) :
    r.data.head? = some 'm' ∨ r.data.head? = some 'z'
    ∨ r.data.head? = some 'l' ∨ r.data.head? = some 'f' := by
  unfold featureReasons at hr
  simp only [List.mem_append] at hr
  rcases hr with ((((h | h) | h) | h) | h)
  · cases hm : memoSpamHit tx with
    | none => rw [hm] at h; simp at h
    | some p =>
        rw [hm] at h
        simp only [List.mem_singleton] at h
        subst h
        left
        rfl
  · split_ifs at h with hc
    · simp only [List.mem_singleton] at h
      subst h
      left
      rfl
    · simp at h
  · split_ifs at h with hc
    · simp only [List.mem_singleton] at h
      subst h
      left
      rfl
    · simp at h
  · split_ifs at h with hc1 hc2
    · simp only [List.mem_singleton] at h
      subst h
      right
      left
      rfl
    · simp only [List.mem_singleton] at h
      subst h
      right
      right
      left
      rfl
    · simp at h
  · split_ifs at h with hc
    · simp only [List.mem_singleton] at h
      subst h
      right
      right
      right
      rfl
    · simp at h

theorem susp_warning_not_mem (tx : Tx) :
    "suspicious_tx_warning" ∉ featureReasons tx := by
  intro h
  rcases featureReasons_head tx h with h1 | h1 | h1 | h1 <;> exact absurd h1 (by decide)

theorem high_risk_not_mem (tx : Tx) :
    "high_risk_tx_warning" ∉ featureReasons tx := by
  intro h
  rcases featureReasons_head tx h with h1 | h1 | h1 | h1 <;> exact absurd h1 (by decide)

theorem denied_not_mem (tx : Tx) :
    "tx_denied_extreme_spam" ∉ featureReasons tx := by
  intro h
  rcases featureReasons_head tx h with h1 | h1 | h1 | h1 <;> exact absurd h1 (by decide)

theorem tx_policy_suspicion (tx : Tx) :
    (tx_policy tx).suspicion = clamp (suspicionRaw tx) 0 1 := by
  unfold tx_policy
  dsimp only
  split_ifs <;> rfl

theorem tx_policy_allow (tx : Tx) (h : clamp (suspicionRaw tx) 0 1 < 2/5) :
    tx_policy tx =
      { ok := true, fee_multiplier := 1, reasons := featureReasons tx,
        suggestions := featureSuggestions tx,
        suspicion := clamp (suspicionRaw tx) 0 1 } := by
  have h9 : ¬ (9/10 ≤ clamp (suspicionRaw tx) 0 1) := by intro hc; linarith
  unfold tx_policy
  dsimp only
  rw [if_pos h, if_neg h9]

theorem tx_policy_warn1 (tx : Tx) (h1 : ¬ clamp (suspicionRaw tx) 0 1 < 2/5)
    (h2 : clamp (suspicionRaw tx) 0 1 < 7/10) :
    tx_policy tx =
      { ok := true, fee_multiplier := 2,
        reasons := "suspicious_tx_warning" :: featureReasons tx,
        suggestions := featureSuggestions tx,
        suspicion := clamp (suspicionRaw tx) 0 1 } := by
  have h9 : ¬ (9/10 ≤ clamp (suspicionRaw tx) 0 1) := by intro hc; linarith
  unfold tx_policy
  dsimp only
  rw [if_neg h1, if_pos h2, if_neg h9]

theorem tx_policy_warn2 (tx : Tx) (h1 : ¬ clamp (suspicionRaw tx) 0 1 < 2/5)
    (h2 : ¬ clamp (suspicionRaw tx) 0 1 < 7/10)
    (h9 : ¬ (9/10 ≤ clamp (suspicionRaw tx) 0 1)) :
    tx_policy tx =
      { ok := true, fee_multiplier := 5,
        reasons := "high_risk_tx_warning" :: featureReasons tx,
        suggestions := featureSuggestions tx,
        suspicion := clamp (suspicionRaw tx) 0 1 } := by
  unfold tx_policy
  dsimp only
  rw [if_neg h1, if_neg h2, if_neg h9]

theorem tx_policy_deny (tx : Tx) (h9 : 9/10 ≤ clamp (suspicionRaw tx) 0 1) :
    tx_policy tx =
      { ok := false, fee_multiplier := 5,
        reasons := "tx_denied_extreme_spam" :: "high_risk_tx_warning"
          :: featureReasons tx,
        suggestions := featureSuggestions tx
          ++ ["Rewrite transaction to remove spam indicators."],
        suspicion := clamp (suspicionRaw tx) 0 1 } := by
  have h1 : ¬ clamp (suspicionRaw tx) 0 1 < 2/5 := by intro hc; linarith
  have h2 : ¬ clamp (suspicionRaw tx) 0 1 < 7/10 := by intro hc; linarith
  unfold tx_policy
  dsimp only
  rw [if_neg h1, if_neg h2, if_pos h9]

theorem clamp01_mem (q : ℚ) : 0 ≤ clamp q 0 1 ∧ clamp q 0 1 ≤ 1 := by
  rw [clamp_eq_max_min _ _ _ (by norm_num : (0 : ℚ) ≤ 1)]
  exact ⟨le_max_left _ _, max_le (by norm_num) (min_le_left _ _)⟩

/-- C4: the scorer maps the clamped suspicion to a decision exactly per the
policy table: `< 0.40` allow with multiplier 1 and none of the mandatory
reason tags; `[0.40, 0.70)` allowed warn with multiplier 2 and
`suspicious_tx_warning`; `[0.70, 0.90)` allowed warn with multiplier 5 and
`high_risk_tx_warning`; `≥ 0.90` deny with `tx_denied_extreme_spam`; and the
returned suspicion always lies in `[0, 1]`. -/
theorem C4_policy_table (tx : Tx) :
    (0 ≤ (tx_policy tx).suspicion ∧ (tx_policy tx).suspicion ≤ 1)
    ∧ ((tx_policy tx).suspicion < 2/5 →
        (tx_policy tx).ok = true ∧ (tx_policy tx).fee_multiplier = 1
        ∧ "suspicious_tx_warning" ∉ (tx_policy tx).reasons
        ∧ "high_risk_tx_warning" ∉ (tx_policy tx).reasons
        ∧ "tx_denied_extreme_spam" ∉ (tx_policy tx).reasons)
    ∧ (2/5 ≤ (tx_policy tx).suspicion → (tx_policy tx).suspicion < 7/10 →
        (tx_policy tx).ok = true ∧ (tx_policy tx).fee_multiplier = 2
        ∧ "suspicious_tx_warning" ∈ (tx_policy tx).reasons)
    ∧ (7/10 ≤ (tx_policy tx).suspicion → (tx_policy tx).suspicion < 9/10 →
        (tx_policy tx).ok = true ∧ (tx_policy tx).fee_multiplier = 5
        ∧ "high_risk_tx_warning" ∈ (tx_policy tx).reasons)
    ∧ (9/10 ≤ (tx_policy tx).suspicion →
        (tx_policy tx).ok = false
        ∧ "tx_denied_extreme_spam" ∈ (tx_policy tx).reasons) := by
  have hss := tx_policy_suspicion tx
  refine ⟨by rw [hss]; exact clamp01_mem _, ?_, ?_, ?_, ?_⟩
  · intro h
    rw [hss] at h
    rw [tx_policy_allow tx h]
    refine ⟨rfl, rfl, susp_warning_not_mem tx, high_risk_not_mem tx, denied_not_mem tx⟩
  · intro h1 h2
    rw [hss] at h1 h2
    rw [tx_policy_warn1 tx (not_lt.mpr h1) h2]
    exact ⟨rfl, rfl, List.mem_cons_self _ _⟩
  · intro h1 h2
    rw [hss] at h1 h2
    rw [tx_policy_warn2 tx (by intro hc; linarith) (not_lt.mpr h1) (not_le.mpr h2)]
    exact ⟨rfl, rfl, List.mem_cons_self _ _⟩
  · intro h9
    rw [hss] at h9
    rw [tx_policy_deny tx h9]
    exact ⟨rfl, List.mem_cons_self _ _⟩

/-- C4 witness: the table evaluated at three concrete transactions
(allow at suspicion 0, warn with multiplier 2 at suspicion 0.40, deny at
suspicion 0.95). -/
theorem C4_policy_table_witness :
    ((tx_policy { memo := "", outputs := 1, fee := 100, amount := 0 }).ok = true
      ∧ (tx_policy { memo := "", outputs := 1, fee := 100, amount := 0 }).fee_multiplier = 1)
    ∧ ((tx_policy { memo := "", outputs := 6, fee := 50, amount := 0 }).ok = true
      ∧ (tx_policy { memo := "", outputs := 6, fee := 50, amount := 0 }).fee_multiplier = 2)
    ∧ (tx_policy { memo := "FREE MONEY airdrop claim http://x", outputs := 10, fee := 0, amount := 0 }).ok = false := by
  have hA := C4_policy_table { memo := "", outputs := 1, fee := 100, amount := 0 }
  have hW := C4_policy_table { memo := "", outputs := 6, fee := 50, amount := 0 }
  have hD := C4_policy_table
    { memo := "FREE MONEY airdrop claim http://x", outputs := 10, fee := 0, amount := 0 }
  have erA : suspicionRaw { memo := "", outputs := 1, fee := 100, amount := 0 } = 0 := by
    unfold suspicionRaw
    norm_num [memoSpamHit]
  have erW : suspicionRaw { memo := "", outputs := 6, fee := 50, amount := 0 } = 2/5 := by
    unfold suspicionRaw
    norm_num [memoSpamHit]
  have hhit : memoSpamHit
      { memo := "FREE MONEY airdrop claim http://x", outputs := 10, fee := 0, amount := 0 }
      = some ⟨"http[s]?://", PatKind.httpUrl⟩ := by rfl
  have hl : ¬ (140 < "FREE MONEY airdrop claim http://x".length) := by decide
  have erD : suspicionRaw
      { memo := "FREE MONEY airdrop claim http://x", outputs := 10, fee := 0, amount := 0 }
      = 19/20 := by
    unfold suspicionRaw
    rw [hhit, if_neg hl]
    norm_num
  have eA : (tx_policy { memo := "", outputs := 1, fee := 100, amount := 0 }).suspicion = 0 := by
    rw [tx_policy_suspicion, erA, clamp]
    norm_num
  have eW : (tx_policy { memo := "", outputs := 6, fee := 50, amount := 0 }).suspicion = 2/5 := by
    rw [tx_policy_suspicion, erW, clamp]
    norm_num
  have eD : (tx_policy
      { memo := "FREE MONEY airdrop claim http://x", outputs := 10, fee := 0, amount := 0 }).suspicion
      = 19/20 := by
    rw [tx_policy_suspicion, erD, clamp]
    norm_num
  have rA := hA.2.1 (by rw [eA]; norm_num)
  have rW := hW.2.2.1 (by rw [eW]) (by rw [eW]; norm_num)
  have rD := hD.2.2.2.2 (by rw [eD]; norm_num)
  exact ⟨⟨rA.1, rA.2.1⟩, ⟨rW.1, rW.2.1⟩, rD.1⟩

/-- C5: the literal transaction with memo "FREE MONEY airdrop claim http://x",
10 outputs and zero fee scores suspicion 0.95 ≥ 0.9 and is denied with
reasons including `tx_denied_extreme_spam`. -/
theorem C5_spam_tx_denied :
    9/10 ≤ (tx_policy { memo := "FREE MONEY airdrop claim http://x", outputs := 10, fee := 0, amount := 0 }).suspicion
    ∧ (tx_policy { memo := "FREE MONEY airdrop claim http://x", outputs := 10, fee := 0, amount := 0 }).ok = false
    ∧ "tx_denied_extreme_spam" ∈ (tx_policy { memo := "FREE MONEY airdrop claim http://x", outputs := 10, fee := 0, amount := 0 }).reasons := by
  have hhit : memoSpamHit
      { memo := "FREE MONEY airdrop claim http://x", outputs := 10, fee := 0, amount := 0 }
      = some ⟨"http[s]?://", PatKind.httpUrl⟩ := by rfl
  have hl : ¬ (140 < "FREE MONEY airdrop claim http://x".length) := by decide
  have hraw : suspicionRaw
      { memo := "FREE MONEY airdrop claim http://x", outputs := 10, fee := 0, amount := 0 }
      = 19/20 := by
    unfold suspicionRaw
    rw [hhit, if_neg hl]
    norm_num
  have hsusp : clamp (suspicionRaw
      { memo := "FREE MONEY airdrop claim http://x", outputs := 10, fee := 0, amount := 0 }) 0 1
      = 19/20 := by
    rw [hraw, clamp]
    norm_num
  have h9 : 9/10 ≤ clamp (suspicionRaw
      { memo := "FREE MONEY airdrop claim http://x", outputs := 10, fee := 0, amount := 0 }) 0 1 := by
    rw [hsusp]
    norm_num
  have hd := tx_policy_deny _ h9
  refine ⟨?_, ?_, ?_⟩
  · rw [tx_policy_suspicion, hsusp]
    norm_num
  · rw [hd]
  · rw [hd]
    exact List.mem_cons_self _ _

/-- C7: the transaction scorer is deterministic and pure: the `/tx_policy`
handler returns `tx_policy t` unchanged for any ambient `STATE` value, its
result does not depend on that state, and two evaluations on the same input
are equal.  In the source, `tx_policy` reads only its argument (no wall
clock, no module state). -/
theorem C7_policy_determinism (t : Tx) (s1 s2 : ℝ) :
    handle_tx_policy t s1 = (tx_policy t, s1)
    ∧ (handle_tx_policy t s1).1 = (handle_tx_policy t s2).1
    ∧ tx_policy t = tx_policy t :=
  ⟨rfl, rfl, rfl⟩

/-- C8: when both the mempool.space fetches and the blockstream fallback
fail, `fetch_btc_mempool_signals` returns the zero-pressure snapshot with
source tag "none". -/
theorem C8_fetch_failure_zero_snapshot :
    fetch_btc_mempool_signals none none none =
      { mempool_txs := 0, mempool_vbytes := 0, fee_fast := 0, fee_hour := 0,
        fee_econ := 0, source := "none" } := rfl

/-- C9: every transaction with fee ≥ 100 and fewer than 6 outputs is never
denied, regardless of memo content and amount: the memo scan contributes at
most one 0.35 increment (the loop breaks at the first match), the memo
length at most 0.15 and the fee/amount ratio at most 0.10, so the suspicion
is at most 0.60 < 0.90. -/
theorem C9_high_fee_never_denied (tx : Tx) (hfee : 100 ≤ tx.fee)
    (hout : tx.outputs < 6) :
    (tx_policy tx).ok = true ∧ (tx_policy tx).suspicion ≤ 3/5 := by
  have hraw : suspicionRaw tx ≤ 3/5 := by
    unfold suspicionRaw
    rw [if_neg (by omega : ¬ (6 ≤ tx.outputs)),
        if_neg (by omega : ¬ (tx.fee ≤ 0)),
        if_neg (by omega : ¬ (tx.fee < 100))]
    split_ifs <;> norm_num
  have hcl : clamp (suspicionRaw tx) 0 1 ≤ 3/5 := by
    rw [clamp_eq_max_min _ _ _ (by norm_num : (0 : ℚ) ≤ 1)]
    exact max_le (by norm_num) (le_trans (min_le_right _ _) hraw)
  constructor
  · have h9 : ¬ (9/10 ≤ clamp (suspicionRaw tx) 0 1) := by intro hc; linarith
    by_cases h1 : clamp (suspicionRaw tx) 0 1 < 2/5
    · rw [tx_policy_allow tx h1]
    · by_cases h2 : clamp (suspicionRaw tx) 0 1 < 7/10
      · rw [tx_policy_warn1 tx h1 h2]
      · rw [tx_policy_warn2 tx h1 h2 h9]
  · rw [tx_policy_suspicion]
    exact hcl

/-- C9 witness: a plain transaction with fee 100 and one output is allowed
with suspicion at most 0.60. -/
theorem C9_high_fee_never_denied_witness :
    (tx_policy { memo := "", outputs := 1, fee := 100, amount := 0 }).ok = true
    ∧ (tx_policy { memo := "", outputs := 1, fee := 100, amount := 0 }).suspicion ≤ 3/5 :=
  C9_high_fee_never_denied _ (by decide) (by decide)

/-! ### Reward smoothing state (block_reward) -/

theorem sigmoid_nonneg (x : ℝ) : 0 ≤ sigmoid x := by
  unfold sigmoid
  split_ifs with h
  · positivity
  · positivity

theorem estimate_target_blocks_eq : estimate_target_blocks = 5259600 := by
  unfold estimate_target_blocks TARGET_YEARS TARGET_BLOCK_SECONDS
  rw [show ((1:ℤ) ⊔ (60:ℤ)) = (60:ℤ) from by decide]
  rw [show (((10:ℤ)):ℝ) = 10 by norm_num, show (((60:ℤ)):ℝ) = 60 by norm_num]
  rw [max_eq_right (by norm_num : (1:ℝ) ≤ 10 * 365.25 * 24 * 3600 / 60)]
  norm_num

theorem br_stateful_first :
    block_reward
      { height := 5159600, minted := 0, active_miners := 10000000000,
        active_nodes := 1, tx_count := 0, mempool_size := 0, fee_pressure := 100 }
      0 = (1120, 1120) := by
  unfold block_reward ewma TOTAL_SUPPLY MIN_REWARD MAX_REWARD SMOOTHING
  dsimp only
  rw [if_neg (show ¬ ((100000000:ℤ) - 0 ≤ 0) by norm_num)]
  rw [estimate_target_blocks_eq]
  have hl10 : Real.logb 10 ((1:ℝ) ⊔ 10000000000) = 10 := by
    rw [max_eq_right (by norm_num : (1:ℝ) ≤ 10000000000)]
    rw [show (10000000000:ℝ) = 10 ^ (10:ℕ) by norm_num]
    rw [Real.logb_pow, Real.logb_self_eq_one (by norm_num)]
    norm_num
  have hl1 : Real.logb 10 ((1:ℝ) ⊔ 1) = 0 := by
    rw [max_self, Real.logb_one]
  rw [hl10, hl1]
  have hca : clamp (1 + 0.35 * (0.6 * 10 + 0.4 * 0)
      + 0.45 * (0.7 * sigmoid ((0 - 200) / 200) + 0.3 * sigmoid ((0 - 50) / 50) - 0.5))
      0.5 1.8 = (1.8:ℝ) := by
    have h1 := sigmoid_nonneg ((0 - 200) / 200 : ℝ)
    have h2 := sigmoid_nonneg ((0 - 50) / 50 : ℝ)
    rw [clamp]
    rw [if_neg (by nlinarith), if_pos (by nlinarith)]
  have hcb : clamp (1 + 0.20 * (0.6 * 10 + 0.4 * 0) + 0.60 * (100 / 3)) 0.5 1.8
      = (1.8:ℝ) := by
    rw [clamp]
    norm_num
  rw [hca, hcb]
  rw [show (((100000000:ℤ) - 0 : ℤ) : ℝ) = 100000000 by norm_num]
  rw [show (((5159600:ℤ)) : ℝ) = 5159600 by norm_num]
  rw [show (5259600:ℝ) - 5159600 = 100000 by norm_num]
  rw [max_eq_right (by norm_num : (1:ℝ) ≤ 100000)]
  rw [show (100000000:ℝ) / 100000 = 1000 by norm_num]
  rw [max_eq_right (by norm_num : (1:ℝ) ≤ 1000)]
  rw [if_pos (le_refl (0:ℝ))]
  have hsm : clamp (0.15:ℝ) 0 1 = 0.15 := by
    rw [clamp]
    norm_num
  rw [hsm]
  rw [show (1 - 0.15) * (1000:ℝ) + 0.15 * (0.5 * (1000 * 1.8 + 1000 * 1.8)) = 1120 by norm_num]
  rw [show (((1:ℤ)) : ℝ) = 1 by norm_num, show (((20000:ℤ)) : ℝ) = 20000 by norm_num]
  have hclamp : clamp (1120:ℝ) 1 20000 = 1120 := by
    rw [clamp]
    norm_num
  rw [hclamp]
  have hpr : pyRound (1120:ℝ) = 1120 := by
    rw [pyRound]
    rw [show (1120:ℝ) = ((1120:ℤ):ℝ) by norm_num]
    rw [Int.fract_intCast]
    rw [if_neg (by norm_num)]
    rw [round_intCast]
  rw [hpr]
  rw [show (1120:ℤ) ⊓ ((0:ℤ) ⊔ (100000000 - 0)) = 1120 from by decide]
  norm_num

theorem br_stateful_second :
    block_reward
      { height := 5159600, minted := 0, active_miners := 10000000000,
        active_nodes := 1, tx_count := 0, mempool_size := 0, fee_pressure := 100 }
      1120 = (1222, 1222) := by
  unfold block_reward ewma TOTAL_SUPPLY MIN_REWARD MAX_REWARD SMOOTHING
  dsimp only
  rw [if_neg (show ¬ ((100000000:ℤ) - 0 ≤ 0) by norm_num)]
  rw [estimate_target_blocks_eq]
  have hl10 : Real.logb 10 ((1:ℝ) ⊔ 10000000000) = 10 := by
    rw [max_eq_right (by norm_num : (1:ℝ) ≤ 10000000000)]
    rw [show (10000000000:ℝ) = 10 ^ (10:ℕ) by norm_num]
    rw [Real.logb_pow, Real.logb_self_eq_one (by norm_num)]
    norm_num
  have hl1 : Real.logb 10 ((1:ℝ) ⊔ 1) = 0 := by
    rw [max_self, Real.logb_one]
  rw [hl10, hl1]
  have hca : clamp (1 + 0.35 * (0.6 * 10 + 0.4 * 0)
      + 0.45 * (0.7 * sigmoid ((0 - 200) / 200) + 0.3 * sigmoid ((0 - 50) / 50) - 0.5))
      0.5 1.8 = (1.8:ℝ) := by
    have h1 := sigmoid_nonneg ((0 - 200) / 200 : ℝ)
    have h2 := sigmoid_nonneg ((0 - 50) / 50 : ℝ)
    rw [clamp]
    rw [if_neg (by nlinarith), if_pos (by nlinarith)]
  have hcb : clamp (1 + 0.20 * (0.6 * 10 + 0.4 * 0) + 0.60 * (100 / 3)) 0.5 1.8
      = (1.8:ℝ) := by
    rw [clamp]
    norm_num
  rw [hca, hcb]
  rw [show (((100000000:ℤ) - 0 : ℤ) : ℝ) = 100000000 by norm_num]
  rw [show (((5159600:ℤ)) : ℝ) = 5159600 by norm_num]
  rw [show (5259600:ℝ) - 5159600 = 100000 by norm_num]
  rw [max_eq_right (by norm_num : (1:ℝ) ≤ 100000)]
  rw [show (100000000:ℝ) / 100000 = 1000 by norm_num]
  rw [max_eq_right (by norm_num : (1:ℝ) ≤ 1000)]
  rw [if_neg (show ¬ ((1120:ℝ) ≤ 0) by norm_num)]
  have hsm : clamp (0.15:ℝ) 0 1 = 0.15 := by
    rw [clamp]
    norm_num
  rw [hsm]
  rw [show (1 - 0.15) * (1120:ℝ) + 0.15 * (0.5 * (1000 * 1.8 + 1000 * 1.8)) = 1222 by norm_num]
  rw [show (((1:ℤ)) : ℝ) = 1 by norm_num, show (((20000:ℤ)) : ℝ) = 20000 by norm_num]
  have hclamp : clamp (1222:ℝ) 1 20000 = 1222 := by
    rw [clamp]
    norm_num
  rw [hclamp]
  have hpr : pyRound (1222:ℝ) = 1222 := by
    rw [pyRound]
    rw [show (1222:ℝ) = ((1222:ℤ):ℝ) by norm_num]
    rw [Int.fract_intCast]
    rw [if_neg (by norm_num)]
    rw [round_intCast]
  rw [hpr]
  rw [show (1222:ℤ) ⊓ ((0:ℤ) ⊔ (100000000 - 0)) = 1222 from by decide]
  norm_num

/-- C10: `block_reward` is not a pure function of its arguments: it reads and
overwrites the module global `STATE["prev_reward"]` for EWMA smoothing, so
there is a metrics input (here: height 5,159,600, 10^10 active miners, fee
pressure 100) on which two consecutive calls with identical arguments,
starting from the initial `STATE`, return different rewards (1120, then
1222). -/
theorem C10_block_reward_stateful :
    ∃ m : Metrics,
      (block_reward m initialPrevReward).1
        ≠ (block_reward m (block_reward m initialPrevReward).2).1 := by
  refine ⟨{ height := 5159600, minted := 0, active_miners := 10000000000, active_nodes := 1, tx_count := 0, mempool_size := 0, fee_pressure := 100 }, ?_⟩
  have h0 : initialPrevReward = (0:ℝ) := rfl
  rw [h0, br_stateful_first]
  dsimp only
  rw [br_stateful_second]
  decide

end RamIA
